import Mathlib

/-!
Verification development for `src/action.py` (Unity Cloud Build driver).

Text is modeled as lists of Unicode code points (`List Nat`); `str` converts a
Lean string literal to that representation. Python's `str.replace`,
`re.sub("[^0-9a-zA-Z]+", "-", ·)`, `str.lower` (ASCII range, which is all the
relevant inputs exercise) and slicing are embedded as executable functions on
`List Nat`. Remote HTTP traffic is modeled by an oracle assigning a response to
each request, and each embedded method returns, next to its Python result
(`Except PyErr α` — `.error` is a raised exception), the list of remote calls
it issued, so that "issues no creation call" style properties are statable.
-/

deriving instance DecidableEq for Except

namespace Action

/-- Code points of a string literal. -/
def str (s : String) : List Nat := s.data.map Char.toNat

/-- Exceptions raised by the script. The Python code raises bare `Exception`s
(and, on one path, a `NameError`); the constructors record which `raise`
site / runtime error is meant. -/
inductive PyErr where
  /-- line 94: pull request detected but `head_ref` is empty. -/
  | missingHeadRef
  /-- line 126: `get_build_targetname()` called with falsy `primary_build_target`. -/
  | emptyPrimaryTarget
  /-- lines 179/189: HTTP status outside the accepted set (carries the status). -/
  | requestFailed (status : Nat)
  /-- line 370: no existing target and `allow_new_target` is false. -/
  | noTargetNotAllowed (name : List Nat)
  /-- line 417: creation answered 500 with an unrecognized `error` body. -/
  | newTargetError (err : List Nat)
  /-- `dict[k]` on a missing key (e.g. line 413 when the 500 body has no `error`). -/
  | keyError (key : List Nat)
  /-- line 415 reads the variable `new_target_name`, which is defined nowhere in
  the file (the local is `build_target_name`), so executing that line raises
  `NameError`. -/
  | nameErrorUndefinedVariable
  /-- line 523: the polled build ended in a failed status. -/
  | buildFailed (status : List Nat)
deriving DecidableEq

/-- Result of `get_branch_and_label` (class `BranchAndLabel`, lines 69-76). -/
structure BranchAndLabel where
  branch : List Nat
  label : List Nat
deriving DecidableEq

/-- Python `s.replace(pat, rep)`: replace all non-overlapping occurrences,
scanning left to right. Structured with fuel (one unit per scanned position)
so the kernel can evaluate it; `s.length` fuel always suffices. -/
def pyReplaceFuel (pat rep : List Nat) : Nat → List Nat → List Nat
  | 0, l => l
  | _ + 1, [] => []
  | fuel + 1, c :: rest =>
    if !pat.isEmpty && pat.isPrefixOf (c :: rest) then
      rep ++ pyReplaceFuel pat rep fuel (rest.drop (pat.length - 1))
    else
      c :: pyReplaceFuel pat rep fuel rest

/-- `s.replace(pat, rep)` for nonempty `pat` (all uses in the source have
nonempty literal patterns). -/
def pyReplace (s pat rep : List Nat) : List Nat := pyReplaceFuel pat rep s.length s

/-- `get_branch_and_label` (lines 88-115). An empty `head_ref` plays the role
of Python's empty-or-`None` falsy value. -/
def get_branch_and_label (branch_ref head_ref : List Nat) : Except PyErr BranchAndLabel :=
  let is_pull_request := (str "refs/pull/").isPrefixOf branch_ref
  if is_pull_request && head_ref.isEmpty then
    .error .missingHeadRef
  else
    let b1 := pyReplace branch_ref (str "refs/tags/") []
    let b2 := pyReplace b1 (str "refs/heads/") []
    let b3 := pyReplace b2 (str "refs/pull/") (str "pull request ")
    let label := b3
    let hr := pyReplace head_ref (str "refs/heads/") []
    let branch := if is_pull_request then hr else b3
    .ok ⟨branch, label⟩

example : get_branch_and_label (str "refs/heads/main") [] = .ok ⟨str "main", str "main"⟩ := by
  decide

example : get_branch_and_label (str "refs/pull/42/merge") (str "refs/heads/feature-x")
    = .ok ⟨str "feature-x", str "pull request 42/merge"⟩ := by
  decide

/-- `[0-9a-zA-Z]` on code points (digits 48-57, lowercase 97-122, uppercase 65-90). -/
def isAlnumCode (n : Nat) : Bool :=
  (48 ≤ n && n ≤ 57) || (97 ≤ n && n ≤ 122) || (65 ≤ n && n ≤ 90)

/-- `re.sub("[^0-9a-zA-Z]+", "-", s)`: each maximal run of non-alphanumeric
characters becomes a single hyphen (code 45). The Bool records whether the
previous character was part of such a run. -/
def reSubAux : Bool → List Nat → List Nat
  | _, [] => []
  | inRun, c :: rest =>
    if isAlnumCode c then c :: reSubAux false rest
    else if inRun then reSubAux true rest
    else 45 :: reSubAux true rest

/-- `re.sub("[^0-9a-zA-Z]+", "-", s)` (line 135). -/
def reSubNonAlnum (l : List Nat) : List Nat := reSubAux false l

/-- Python `str.lower()` on a code point, ASCII range (the case shift that all
inputs of this script exercise): uppercase A-Z maps to a+32, everything else is
unchanged. -/
def lowerCode (n : Nat) : Nat := if 65 ≤ n && n ≤ 90 then n + 32 else n

/-- The free function `get_build_targetname` (lines 123-142): sanitize the
label, prefix `{primary}-`, slice `[:63]`, lower-case. The Python `None` check
on `branch_and_label` has no counterpart because the Lean argument cannot be
`None`; the falsy (empty) check on `primary_build_target` is kept. -/
def get_build_targetname (primary_build_target : List Nat)
    (branch_and_label : BranchAndLabel) : Except PyErr (List Nat) :=
  if primary_build_target.isEmpty then .error .emptyPrimaryTarget
  else
    let t1 := reSubNonAlnum branch_and_label.label
    let t2 := primary_build_target ++ 45 :: t1
    let t3 := t2.take 63
    .ok (t3.map lowerCode)

example : get_build_targetname (str "mac") ⟨str "feature/cool thing!", str "feature/cool thing!"⟩
    = .ok (str "mac-feature-cool-thing-") := by decide

/-- A single remote call, as recorded in a trace: a GET of a build target's
meta, or the creation POST (recorded with the posted target name). -/
inductive Call where
  | getTarget (name : List Nat)
  | postCreate (name : List Nat)
deriving DecidableEq

/-- Is this trace entry the creation POST? -/
def Call.isCreate : Call → Bool
  | .postCreate _ => true
  | .getTarget _ => false

/-- `settings` dict of a build target: the two keys the script touches
(`scm.branch`, `buildSchedule`) plus an opaque remainder. -/
structure SettingsObj where
  scmBranch : List Nat
  buildSchedule : List (List Nat × List Nat)
  other : List Nat
deriving DecidableEq

/-- Build target meta as fetched from the remote (`platform`, `settings`,
`credentials` are the fields the script reads). -/
structure TargetMeta where
  platform : List Nat
  settings : SettingsObj
  credentials : List Nat
deriving DecidableEq

/-- Body POSTed to create a build target (lines 388-401). -/
structure PostedBody where
  name : List Nat
  enabled : Bool
  platform : List Nat
  settings : SettingsObj
  credentials : List Nat
deriving DecidableEq

/-- Response to the creation POST: HTTP status, the optional `error` field of
the JSON body, and the body parsed as target meta (meaningful on 201). -/
structure PostResp where
  status : Nat
  error : Option (List Nat)
  body : TargetMeta
deriving DecidableEq

/-- The remote system during one invocation: a response for every request.
GET of a target name either yields its meta or raises (`.error`); the
creation POST yields a status and body. Scoped to the org/project base URL
like `api_request_base_url`. -/
structure UCOracle where
  getTarget : List Nat → Except PyErr TargetMeta
  postCreate : PostedBody → PostResp

/-- The fields of `UnityCloudBuilder` the reconciliation claims depend on. -/
structure Builder where
  primary : List Nat
  bl : BranchAndLabel

/-- A heap of Python `settings` dict objects, addressed by `Nat`: Python dict
values are references, so building `payload` with
`"settings": primary_target_meta["settings"]` makes the payload and the
fetched meta share one object. -/
structure Store where
  settings : Nat → SettingsObj

/-- Fetched meta whose `settings` entry is a reference into a `Store`. -/
structure MetaRef where
  platform : List Nat
  settingsAddr : Nat
  credentials : List Nat

/-- The `payload` dict of lines 388-394, with its `settings` entry as the
reference it copies from the fetched meta. -/
structure PayloadRef where
  name : List Nat
  enabled : Bool
  platform : List Nat
  settingsAddr : Nat
  credentials : List Nat

/-- Update the settings object at one address. -/
def storeWrite (st : Store) (a : Nat) (f : SettingsObj → SettingsObj) : Store :=
  ⟨fun x => if x = a then f (st.settings x) else st.settings x⟩

/-- Lines 388-401: build the creation `payload` from the fetched primary meta,
then perform the two in-place writes
`payload["settings"]["scm"]["branch"] = branch` and
`payload["settings"]["buildSchedule"] = {}` through the shared reference. -/
def build_create_payload (st : Store) (pm : MetaRef) (name branch : List Nat) :
    PayloadRef × Store :=
  let payload : PayloadRef :=
    { name := name, enabled := true, platform := pm.platform,
      settingsAddr := pm.settingsAddr, credentials := pm.credentials }
  let st1 := storeWrite st payload.settingsAddr (fun s => { s with scmBranch := branch })
  let st2 := storeWrite st1 payload.settingsAddr (fun s => { s with buildSchedule := [] })
  (payload, st2)

/-- The exact collision message recognized at line 414. -/
def collisionMsg : List Nat := str "Build target name already in use for this project!"

/-- `UnityCloudBuilder.create_new_build_target` (lines 376-419): re-fetch the
primary meta (a fresh object graph, here a one-object store at address 0),
assemble the payload, POST it with accepted statuses {201, 500}
(`post_request` raises on any other status), and decode: 201 returns the
response body; 500 with the exact collision message reaches line 415, which
raises `NameError` because `new_target_name` is undefined; 500 with any other
`error` body raises at line 417. -/
def create_new_build_target (o : UCOracle) (b : Builder) (build_target_name : List Nat) :
    Except PyErr TargetMeta × List Call :=
  match o.getTarget b.primary with
  | .error e => (.error e, [Call.getTarget b.primary])
  | .ok pm =>
    let st0 : Store := ⟨fun _ => pm.settings⟩
    let pmRef : MetaRef :=
      { platform := pm.platform, settingsAddr := 0, credentials := pm.credentials }
    let pr := build_create_payload st0 pmRef build_target_name b.bl.branch
    let posted : PostedBody :=
      { name := pr.1.name, enabled := pr.1.enabled, platform := pr.1.platform,
        settings := pr.2.settings pr.1.settingsAddr, credentials := pr.1.credentials }
    let resp := o.postCreate posted
    let calls := [Call.getTarget b.primary, Call.postCreate posted.name]
    let result : Except PyErr TargetMeta :=
      if resp.status = 201 then .ok resp.body
      else if resp.status = 500 then
        match resp.error with
        | none => .error (.keyError (str "error"))
        | some err =>
          if err = collisionMsg then .error .nameErrorUndefinedVariable
          else .error (.newTargetError err)
      else .error (.requestFailed resp.status)
    (result, calls)

/-- `UnityCloudBuilder.get_build_targetname` (lines 323-332): fetch the primary
target's meta; if its configured `settings.scm.branch` equals the resolved
branch, the name is the primary target itself, otherwise it is derived by the
free `get_build_targetname`. A failure of the GET propagates. -/
def builder_get_build_targetname (o : UCOracle) (b : Builder) :
    Except PyErr (List Nat) × List Call :=
  match o.getTarget b.primary with
  | .error e => (.error e, [Call.getTarget b.primary])
  | .ok pm =>
    if pm.settings.scmBranch = b.bl.branch then
      (.ok b.primary, [Call.getTarget b.primary])
    else
      match get_build_targetname b.primary b.bl with
      | .error e => (.error e, [Call.getTarget b.primary])
      | .ok n => (.ok n, [Call.getTarget b.primary])

/-- `UnityCloudBuilder.get_build_target_meta` (lines 360-372): resolve the
target name, try to GET its meta — the `try/except Exception` swallows every
error from that GET — and on any failure either raise (creation not allowed)
or call `create_new_build_target`. -/
def builder_get_build_target_meta (o : UCOracle) (b : Builder) (allow_new_target : Bool) :
    Except PyErr TargetMeta × List Call :=
  match builder_get_build_targetname o b with
  | (.error e, t) => (.error e, t)
  | (.ok name, t) =>
    match o.getTarget name with
    | .ok existing_meta => (.ok existing_meta, t ++ [Call.getTarget name])
    | .error _ =>
      if allow_new_target = false then
        (.error (.noTargetNotAllowed name), t ++ [Call.getTarget name])
      else
        let r := create_new_build_target o b name
        (r.1, t ++ [Call.getTarget name] ++ r.2)

/-- `buildStatus` values classed as failures (line 508). -/
def failed_statuses : List (List Nat) :=
  [str "failure", str "canceled", str "cancelled", str "unknown"]

/-- `buildStatus` values classed as success (line 509). -/
def success_statuses : List (List Nat) := [str "success"]

/-- Build meta returned by one poll: its `buildStatus` plus the untouched
remaining fields. -/
structure BuildMeta where
  buildStatus : List Nat
  rest : List Nat
deriving DecidableEq

/-- What one `get_build_meta` poll attempt does: time out
(`requests.exceptions.Timeout`), return meta, or raise some other exception
(which line 502's handler does not catch). -/
inductive PollEvent where
  | timeout
  | ok (m : BuildMeta)
  | raised (e : PyErr)
deriving DecidableEq

/-- Outcome of `wait_for_successfull_build`: a normal Python return (`none`
models falling off the end of the function, which returns `None`), a raised
exception, or `outOfScript` when the supplied finite event script ends while
the loop would keep polling. -/
inductive WaitResult where
  | returned (m : Option BuildMeta)
  | raised (e : PyErr)
  | outOfScript
deriving DecidableEq

/-- Line 491. -/
def max_timeouts_in_a_row : Nat := 6

/-- The `while timeout_count < max_timeouts_in_a_row` loop of lines 493-525,
driven by a finite script of poll events. A timeout logs and increments the
counter; a successful fetch resets the counter and is then classified:
success statuses return the meta, failed statuses raise, anything else loops.
When the condition fails the loop exits and the function returns `None`. -/
def wait_loop : List PollEvent → Nat → WaitResult
  | [], timeout_count =>
    if max_timeouts_in_a_row ≤ timeout_count then .returned none else .outOfScript
  | ev :: rest, timeout_count =>
    if max_timeouts_in_a_row ≤ timeout_count then .returned none
    else
      match ev with
      | .timeout => wait_loop rest (timeout_count + 1)
      | .raised e => .raised e
      | .ok m =>
        if m.buildStatus ∈ success_statuses then .returned (some m)
        else if m.buildStatus ∈ failed_statuses then .raised (.buildFailed m.buildStatus)
        else wait_loop rest 0

/-- `wait_for_successfull_build` (lines 487-525): run the poll loop with the
counter initialized to 0. -/
def wait_for_successfull_build (events : List PollEvent) : WaitResult :=
  wait_loop events 0

example :
    wait_for_successfull_build
      [PollEvent.ok ⟨str "queued", []⟩, PollEvent.ok ⟨str "started", []⟩,
       PollEvent.ok ⟨str "success", str "meta"⟩]
      = .returned (some ⟨str "success", str "meta"⟩) := by decide

example :
    wait_for_successfull_build [PollEvent.ok ⟨str "queued", []⟩, PollEvent.ok ⟨str "failure", []⟩]
      = .raised (.buildFailed (str "failure")) := by decide

/-- C1: a request timeout does not change build state and increments the
consecutive-timeout counter, and a non-timeout response resets it — but after
6 consecutive timeouts the loop does NOT raise: the `while` condition fails,
the function falls off its end and returns `None` (first conjunct), after
which `main` carries on as if polling had succeeded. Five timeouts followed by
a normal response reset the counter, so polling continues and even repeated
blips (10 timeouts total, never 6 in a row) still reach the success return
(second conjunct). -/
theorem c1_six_timeouts_return_none_instead_of_raising :
    wait_for_successfull_build (List.replicate 6 PollEvent.timeout) = .returned none
    ∧ wait_for_successfull_build
        (List.replicate 5 PollEvent.timeout ++ [PollEvent.ok ⟨str "queued", []⟩]
          ++ List.replicate 5 PollEvent.timeout ++ [PollEvent.ok ⟨str "success", str "m"⟩])
        = .returned (some ⟨str "success", str "m"⟩) := by
  constructor <;> decide

/-- Primary target meta used by the C2 scenario: configured branch `main`. -/
def c2Meta : TargetMeta :=
  { platform := str "ios",
    settings := { scmBranch := str "main", buildSchedule := [(str "time", str "daily")],
                  other := str "s" },
    credentials := str "cred" }

/-- Remote for the C2 collision scenario: the primary target `mac` exists, and
the creation POST answers 500 with the exact collision body. -/
def c2Oracle : UCOracle :=
  { getTarget := fun n => if n = str "mac" then .ok c2Meta else .error (.requestFailed 404),
    postCreate := fun _ => { status := 500, error := some collisionMsg, body := c2Meta } }

/-- Remote identical to `c2Oracle` except the 500 body carries a different
error message. -/
def c2OracleOther : UCOracle :=
  { getTarget := fun n => if n = str "mac" then .ok c2Meta else .error (.requestFailed 404),
    postCreate := fun _ => { status := 500, error := some (str "boom"), body := c2Meta } }

/-- Builder for the C2 scenario: resolved branch `feature`. -/
def c2Builder : Builder :=
  { primary := str "mac", bl := { branch := str "feature", label := str "feature" } }

/-- C2: evaluating `create_new_build_target` at the exact
"Build target name already in use for this project!" 500 body shows that the
reuse path raises `NameError` (line 415 reads the undefined variable
`new_target_name`) instead of returning without raising — only one creation
POST is issued (first conjunct). A 500 body with any other error message
raises the line-417 exception (second conjunct), as the claim says. -/
theorem c2_collision_body_hits_undefined_variable :
    create_new_build_target c2Oracle c2Builder (str "mac-feature")
      = (.error .nameErrorUndefinedVariable,
         [Call.getTarget (str "mac"), Call.postCreate (str "mac-feature")])
    ∧ create_new_build_target c2OracleOther c2Builder (str "mac-feature")
      = (.error (.newTargetError (str "boom")),
         [Call.getTarget (str "mac"), Call.postCreate (str "mac-feature")]) := by
  constructor <;> decide

/-- C5 counterexample: for `refs/pull/42/merge` with head `refs/heads/feature-x`
the display label is `pull request 42/merge`, which CONTAINS the literal
string `/merge` — the claimed stripping of the merge-ref suffix does not
happen anywhere in `get_branch_and_label`. -/
theorem c5_label_contains_merge :
    get_branch_and_label (str "refs/pull/42/merge") (str "refs/heads/feature-x")
      = .ok ⟨str "feature-x", str "pull request 42/merge"⟩
    ∧ List.IsInfix (str "/merge") (str "pull request 42/merge") := by
  constructor <;> decide

/-- C5 amended: `clone_branch` is `feature-x` as claimed, and the display
label `pull request 42/merge` contains the human-readable indicator
`pull request` — but it retains the trailing `/merge`. -/
theorem c5_resolver_on_pull_request_ref :
    get_branch_and_label (str "refs/pull/42/merge") (str "refs/heads/feature-x")
      = .ok ⟨str "feature-x", str "pull request 42/merge"⟩
    ∧ List.IsInfix (str "pull request") (str "pull request 42/merge")
    ∧ List.IsInfix (str "/merge") (str "pull request 42/merge") := by
  refine ⟨by decide, by decide, by decide⟩

/-- Store for the C7 scenario: the fetched primary meta's settings object
(configured branch `main`, a nonempty build schedule) lives at address 0. -/
def c7Store : Store :=
  ⟨fun _ => { scmBranch := str "main", buildSchedule := [(str "time", str "daily")],
              other := str "s" }⟩

/-- The fetched primary meta of the C7 scenario, referring to `c7Store`. -/
def c7Meta : MetaRef := { platform := str "ios", settingsAddr := 0, credentials := str "cred" }

/-- C7 counterexample: the payload's `settings` entry is the same object as the
fetched meta's, so the two writes of lines 398-401 mutate the fetched snapshot
in place: after payload construction the snapshot's `scm.branch` reads
`feature` (no longer the fetched `main`) and its `buildSchedule` is cleared. -/
theorem c7_fetched_settings_mutated_in_place :
    (c7Store.settings c7Meta.settingsAddr).scmBranch = str "main"
    ∧ (c7Store.settings c7Meta.settingsAddr).buildSchedule ≠ []
    ∧ ((build_create_payload c7Store c7Meta (str "mac-feature") (str "feature")).1).settingsAddr
        = c7Meta.settingsAddr
    ∧ (((build_create_payload c7Store c7Meta (str "mac-feature") (str "feature")).2).settings
        c7Meta.settingsAddr).scmBranch = str "feature"
    ∧ (((build_create_payload c7Store c7Meta (str "mac-feature") (str "feature")).2).settings
        c7Meta.settingsAddr).buildSchedule = [] := by
  refine ⟨by decide, by decide, by decide, by decide, by decide⟩

/-- C7 amended: the creation payload aliases the fetched meta's settings
object, and the two in-place writes update that shared object — so the
snapshot read back through the fetched meta's reference now carries the new
branch and a cleared `buildSchedule` (the posted payload therefore does too),
while every other object in the store is untouched. -/
theorem c7_payload_aliases_fetched_settings (st : Store) (pm : MetaRef)
    (name branch : List Nat) :
    ((build_create_payload st pm name branch).1).settingsAddr = pm.settingsAddr
    ∧ (((build_create_payload st pm name branch).2).settings pm.settingsAddr).scmBranch = branch
    ∧ (((build_create_payload st pm name branch).2).settings pm.settingsAddr).buildSchedule = []
    ∧ (((build_create_payload st pm name branch).2).settings pm.settingsAddr).other
        = (st.settings pm.settingsAddr).other
    ∧ ∀ a, a ≠ pm.settingsAddr →
        ((build_create_payload st pm name branch).2).settings a = st.settings a := by
  refine ⟨rfl, ?_, ?_, ?_, ?_⟩
  · simp [build_create_payload, storeWrite]
  · simp [build_create_payload, storeWrite]
  · simp [build_create_payload, storeWrite]
  · intro a ha
    simp [build_create_payload, storeWrite, ha]

/-- Witness for `c7_payload_aliases_fetched_settings` at the C7 scenario and
address 1 (an unrelated object, shown untouched). -/
theorem c7_payload_aliases_fetched_settings_witness :
    (((build_create_payload c7Store c7Meta (str "mac-feature") (str "feature")).2).settings
        c7Meta.settingsAddr).scmBranch = str "feature"
    ∧ (1 : Nat) ≠ c7Meta.settingsAddr
    ∧ ((build_create_payload c7Store c7Meta (str "mac-feature") (str "feature")).2).settings 1
        = c7Store.settings 1 :=
  ⟨(c7_payload_aliases_fetched_settings c7Store c7Meta (str "mac-feature")
      (str "feature")).2.1,
   by decide,
   (c7_payload_aliases_fetched_settings c7Store c7Meta (str "mac-feature")
      (str "feature")).2.2.2.2 1 (by decide)⟩

/-- C8: for every `branch_ref` that starts with the pull-request prefix and an
empty `head_ref`, `get_branch_and_label` raises (line 94) before producing any
output. -/
theorem c8_pull_request_without_head_ref_raises (branch_ref : List Nat)
    (h : (str "refs/pull/").isPrefixOf branch_ref = true) :
    get_branch_and_label branch_ref [] = .error .missingHeadRef := by
  simp [get_branch_and_label, h]

/-- Witness for `c8_pull_request_without_head_ref_raises` at
`refs/pull/7/merge`. -/
theorem c8_pull_request_without_head_ref_raises_witness :
    (str "refs/pull/").isPrefixOf (str "refs/pull/7/merge") = true
    ∧ get_branch_and_label (str "refs/pull/7/merge") [] = .error .missingHeadRef :=
  ⟨by decide, c8_pull_request_without_head_ref_raises (str "refs/pull/7/merge") (by decide)⟩

/-- C9: for every `branch_ref` that does not start with the pull-request
prefix, the resolver's entire output is independent of `head_ref`: two runs
differing only in `head_ref` return identical results. -/
theorem c9_non_pull_request_independent_of_head_ref (branch_ref h1 h2 : List Nat)
    (h : (str "refs/pull/").isPrefixOf branch_ref = false) :
    get_branch_and_label branch_ref h1 = get_branch_and_label branch_ref h2 := by
  simp [get_branch_and_label, h]

/-- Witness for `c9_non_pull_request_independent_of_head_ref`:
`refs/heads/main` with two very different head refs. -/
theorem c9_non_pull_request_independent_of_head_ref_witness :
    (str "refs/pull/").isPrefixOf (str "refs/heads/main") = false
    ∧ get_branch_and_label (str "refs/heads/main") []
        = get_branch_and_label (str "refs/heads/main") (str "refs/heads/other") :=
  ⟨by decide,
   c9_non_pull_request_independent_of_head_ref (str "refs/heads/main") []
     (str "refs/heads/other") (by decide)⟩

/-- `[0-9a-z-]` on code points: the charset the claim asserts for sanitized
target names (digits, lowercase letters, hyphen 45). -/
def isNiceCode (n : Nat) : Bool :=
  (48 ≤ n && n ≤ 57) || (97 ≤ n && n ≤ 122) || (n == 45)

/-- Every character produced by the regex substitution is a hyphen or an
alphanumeric character of the input. -/
theorem reSubAux_mem (st : Bool) (l : List Nat) :
    ∀ c ∈ reSubAux st l, c = 45 ∨ isAlnumCode c = true := by
  induction l generalizing st with
  | nil => intro c hc; cases hc
  | cons x xs ih =>
    intro c hc
    unfold reSubAux at hc
    by_cases hx : isAlnumCode x = true
    · rw [if_pos hx] at hc
      rcases List.mem_cons.mp hc with rfl | h
      · exact Or.inr hx
      · exact ih false c h
    · rw [if_neg hx] at hc
      cases st with
      | false =>
        rw [if_neg (by simp)] at hc
        rcases List.mem_cons.mp hc with rfl | h
        · exact Or.inl rfl
        · exact ih true c h
      | true =>
        rw [if_pos rfl] at hc
        exact ih true c hc

/-- Lower-casing an alphanumeric code point lands in `[0-9a-z-]`. -/
theorem alnum_lower_nice (n : Nat) (h : isAlnumCode n = true) :
    isNiceCode (lowerCode n) = true := by
  by_cases hc : ((65 ≤ n : Bool) && (n ≤ 90 : Bool)) = true
  · rw [lowerCode, if_pos hc]
    simp only [Bool.and_eq_true, decide_eq_true_eq] at hc
    simp only [isNiceCode, Bool.or_eq_true, Bool.and_eq_true, decide_eq_true_eq,
      Nat.beq_eq_true_eq]
    omega
  · rw [lowerCode, if_neg hc]
    simp only [Bool.and_eq_true, decide_eq_true_eq, not_and, not_le] at hc
    simp only [isAlnumCode, Bool.or_eq_true, Bool.and_eq_true, decide_eq_true_eq] at h
    simp only [isNiceCode, Bool.or_eq_true, Bool.and_eq_true, decide_eq_true_eq,
      Nat.beq_eq_true_eq]
    omega

/-- C4 counterexample: the sanitizer does not restrict the primary id's
characters — `get_build_targetname("a_b", "x")` is `a_b-x`, which contains
`_` (code 95), a character outside `[0-9a-z-]` — and the truncation cap is
63, not 64: a 62-character primary id with label `abcdef` (69 characters
before truncation) yields a name of length 63. -/
theorem c4_primary_unsanitized_and_cap_is_63 :
    get_build_targetname (str "a_b") ⟨str "x", str "x"⟩ = .ok (str "a_b-x")
    ∧ (95 ∈ str "a_b-x")
    ∧ isNiceCode 95 = false
    ∧ Except.map List.length
        (get_build_targetname (List.replicate 62 97) ⟨str "abcdef", str "abcdef"⟩)
        = .ok 63 := by
  refine ⟨by decide, by decide, by decide, by decide⟩

/-- C4 amended: the sanitizer replaces runs of non-alphanumerics in the label
with single hyphens, prefixes the primary id, truncates to 63 (not 64)
characters and lower-cases, so every returned name has length at most 63;
its characters are all in `[0-9a-z-]` PROVIDED every character of the primary
id lower-cases into `[0-9a-z-]` (the primary id itself is never
charset-sanitized). Determinism is immediate: the embedded function is pure. -/
theorem c4_sanitizer_bounds (p : List Nat) (bl : BranchAndLabel) (t : List Nat)
    (hp : ∀ d ∈ p, isNiceCode (lowerCode d) = true)
    (ht : get_build_targetname p bl = .ok t) :
    t.length ≤ 63 ∧ ∀ c ∈ t, isNiceCode c = true := by
  unfold get_build_targetname at ht
  by_cases hpe : p.isEmpty = true
  · rw [if_pos hpe] at ht
    exact absurd ht (by simp)
  · rw [if_neg hpe] at ht
    have h : ((p ++ 45 :: reSubNonAlnum bl.label).take 63).map lowerCode = t :=
      Except.ok.inj ht
    subst h
    constructor
    · rw [List.length_map, List.length_take]
      exact min_le_left _ _
    · intro c hc
      rw [List.mem_map] at hc
      obtain ⟨d, hd, rfl⟩ := hc
      have hd' : d ∈ p ++ 45 :: reSubNonAlnum bl.label := List.mem_of_mem_take hd
      rw [List.mem_append] at hd'
      rcases hd' with h | h
      · exact hp d h
      · rw [List.mem_cons] at h
        rcases h with rfl | h
        · decide
        · rcases reSubAux_mem false bl.label d h with rfl | ha
          · decide
          · exact alnum_lower_nice d ha

/-- Witness for `c4_sanitizer_bounds` at the spec's own example
(`mac`, `feature/cool thing!`). -/
theorem c4_sanitizer_bounds_witness :
    (∀ d ∈ str "mac", isNiceCode (lowerCode d) = true)
    ∧ (str "mac-feature-cool-thing-").length ≤ 63
    ∧ ∀ c ∈ str "mac-feature-cool-thing-", isNiceCode c = true :=
  ⟨by decide,
   (c4_sanitizer_bounds (str "mac") ⟨str "feature/cool thing!", str "feature/cool thing!"⟩
      (str "mac-feature-cool-thing-") (by decide) (by decide)).1,
   (c4_sanitizer_bounds (str "mac") ⟨str "feature/cool thing!", str "feature/cool thing!"⟩
      (str "mac-feature-cool-thing-") (by decide) (by decide)).2⟩

/-- A primary target's meta configured on branch `main`, used by the
reconciler scenarios below. -/
def primaryMainMeta : TargetMeta :=
  { platform := str "ios",
    settings := { scmBranch := str "main", buildSchedule := [(str "time", str "daily")],
                  other := str "s" },
    credentials := str "cred" }

/-- C3: whenever the primary target's configured `scm.branch` equals the
resolved branch, `UnityCloudBuilder.get_build_targetname` returns the primary
id unchanged, the full get-or-create reconciliation returns the primary meta
having issued only the two GETs, and no creation POST appears in its trace. -/
theorem c3_matching_branch_reuses_primary (o : UCOracle) (b : Builder) (allow : Bool)
    (pm : TargetMeta) (hp : o.getTarget b.primary = .ok pm)
    (hb : pm.settings.scmBranch = b.bl.branch) :
    builder_get_build_targetname o b = (.ok b.primary, [Call.getTarget b.primary])
    ∧ builder_get_build_target_meta o b allow
        = (.ok pm, [Call.getTarget b.primary, Call.getTarget b.primary])
    ∧ ∀ c ∈ (builder_get_build_target_meta o b allow).2, c.isCreate = false := by
  have h1 : builder_get_build_targetname o b = (.ok b.primary, [Call.getTarget b.primary]) := by
    unfold builder_get_build_targetname
    rw [hp]
    simp [hb]
  have h2 : builder_get_build_target_meta o b allow
      = (.ok pm, [Call.getTarget b.primary, Call.getTarget b.primary]) := by
    unfold builder_get_build_target_meta
    rw [h1]
    simp [hp]
  refine ⟨h1, h2, ?_⟩
  rw [h2]
  intro c hc
  simp only [List.mem_cons, List.not_mem_nil, or_false] at hc
  rcases hc with h | h <;> subst h <;> rfl

/-- Oracle for the C3 witness: only the primary target `mac` exists. -/
def c3Oracle : UCOracle :=
  { getTarget := fun n =>
      if n = str "mac" then .ok primaryMainMeta else .error (.requestFailed 404),
    postCreate := fun _ => { status := 201, error := none, body := primaryMainMeta } }

/-- Builder for the C3 witness: the resolved branch is `main`, the branch the
primary target already tracks. -/
def c3Builder : Builder :=
  { primary := str "mac", bl := { branch := str "main", label := str "main" } }

/-- Witness for `c3_matching_branch_reuses_primary`. -/
theorem c3_matching_branch_reuses_primary_witness :
    builder_get_build_targetname c3Oracle c3Builder = (.ok (str "mac"), [Call.getTarget (str "mac")])
    ∧ builder_get_build_target_meta c3Oracle c3Builder true
        = (.ok primaryMainMeta, [Call.getTarget (str "mac"), Call.getTarget (str "mac")])
    ∧ ∀ c ∈ (builder_get_build_target_meta c3Oracle c3Builder true).2, c.isCreate = false :=
  c3_matching_branch_reuses_primary c3Oracle c3Builder true primaryMainMeta (by decide) (by decide)

/-- C6 amended: when `allow_new_target` is false, the branches differ, and the
existence GET for the derived name fails, reconciliation raises the
"not allowed to create a new one" error (line 370) and its trace contains the
two GETs and no creation POST. (The claim's unconditional raise is refuted by
`c6_existing_derived_target_is_reused_without_error` below: when the derived
target already exists it is reused without any error.) -/
theorem c6_policy_raises_before_creation (o : UCOracle) (b : Builder) (pm : TargetMeta)
    (dn : List Nat) (e : PyErr)
    (hp : o.getTarget b.primary = .ok pm)
    (hb : pm.settings.scmBranch ≠ b.bl.branch)
    (hdn : get_build_targetname b.primary b.bl = .ok dn)
    (he : o.getTarget dn = .error e) :
    builder_get_build_target_meta o b false
      = (.error (.noTargetNotAllowed dn), [Call.getTarget b.primary, Call.getTarget dn])
    ∧ ∀ c ∈ (builder_get_build_target_meta o b false).2, c.isCreate = false := by
  have h1 : builder_get_build_targetname o b = (.ok dn, [Call.getTarget b.primary]) := by
    unfold builder_get_build_targetname
    rw [hp, hdn]
    simp [hb]
  have h2 : builder_get_build_target_meta o b false
      = (.error (.noTargetNotAllowed dn), [Call.getTarget b.primary, Call.getTarget dn]) := by
    unfold builder_get_build_target_meta
    rw [h1]
    simp [he]
  refine ⟨h2, ?_⟩
  rw [h2]
  intro c hc
  simp only [List.mem_cons, List.not_mem_nil, or_false] at hc
  rcases hc with h | h <;> subst h <;> rfl

/-- Meta of the already-existing derived target `mac-feature` in the C6
counterexample (it tracks branch `feature`). -/
def c6DerivedMeta : TargetMeta :=
  { platform := str "ios",
    settings := { scmBranch := str "feature", buildSchedule := [], other := str "s" },
    credentials := str "cred" }

/-- Oracle for the C6 scenarios: the primary `mac` (branch `main`) and the
derived `mac-feature` both exist. -/
def c6Oracle : UCOracle :=
  { getTarget := fun n =>
      if n = str "mac" then .ok primaryMainMeta
      else if n = str "mac-feature" then .ok c6DerivedMeta
      else .error (.requestFailed 404),
    postCreate := fun _ => { status := 201, error := none, body := c6DerivedMeta } }

/-- Builder for the C6 scenarios: resolved branch `feature` differs from the
primary target's `main`. -/
def c6Builder : Builder :=
  { primary := str "mac", bl := { branch := str "feature", label := str "feature" } }

/-- C6 counterexample: with `allow_new_target = false` and differing branches,
reconciliation does NOT raise when the derived target already exists — the
existence GET succeeds, so line 370 is never reached and the existing meta is
returned (with no creation call either). -/
theorem c6_existing_derived_target_is_reused_without_error :
    primaryMainMeta.settings.scmBranch ≠ c6Builder.bl.branch
    ∧ builder_get_build_target_meta c6Oracle c6Builder false
        = (.ok c6DerivedMeta, [Call.getTarget (str "mac"), Call.getTarget (str "mac-feature")]) := by
  constructor <;> decide

/-- Oracle for the C6 witness: only the primary `mac` exists; every other GET
fails with a 404-style error. -/
def c6AbsentOracle : UCOracle :=
  { getTarget := fun n =>
      if n = str "mac" then .ok primaryMainMeta else .error (.requestFailed 404),
    postCreate := fun _ => { status := 201, error := none, body := c6DerivedMeta } }

/-- Witness for `c6_policy_raises_before_creation`. -/
theorem c6_policy_raises_before_creation_witness :
    builder_get_build_target_meta c6AbsentOracle c6Builder false
      = (.error (.noTargetNotAllowed (str "mac-feature")),
         [Call.getTarget (str "mac"), Call.getTarget (str "mac-feature")])
    ∧ ∀ c ∈ (builder_get_build_target_meta c6AbsentOracle c6Builder false).2,
        c.isCreate = false :=
  c6_policy_raises_before_creation c6AbsentOracle c6Builder primaryMainMeta
    (str "mac-feature") (.requestFailed 404) (by decide) (by decide) (by decide) (by decide)

/-- C10: whatever error `e` the existence GET for the derived name raises —
404 or any other upstream failure — the `except Exception` of lines 366-367
swallows it, and with `allow_new_target` true the reconciler proceeds to
`create_new_build_target`: the overall result is exactly the creation call's
result, and the creation POST for the derived name is in the trace. -/
theorem c10_any_failed_existence_check_leads_to_creation (o : UCOracle) (b : Builder)
    (pm : TargetMeta) (dn : List Nat) (e : PyErr)
    (hp : o.getTarget b.primary = .ok pm)
    (hb : pm.settings.scmBranch ≠ b.bl.branch)
    (hdn : get_build_targetname b.primary b.bl = .ok dn)
    (he : o.getTarget dn = .error e) :
    builder_get_build_target_meta o b true
      = ((create_new_build_target o b dn).1,
         [Call.getTarget b.primary, Call.getTarget dn] ++ (create_new_build_target o b dn).2)
    ∧ Call.postCreate dn ∈ (builder_get_build_target_meta o b true).2 := by
  have h1 : builder_get_build_targetname o b = (.ok dn, [Call.getTarget b.primary]) := by
    unfold builder_get_build_targetname
    rw [hp, hdn]
    simp [hb]
  have hc2 : (create_new_build_target o b dn).2
      = [Call.getTarget b.primary, Call.postCreate dn] := by
    unfold create_new_build_target
    rw [hp]
    simp [build_create_payload]
  have h2 : builder_get_build_target_meta o b true
      = ((create_new_build_target o b dn).1,
         [Call.getTarget b.primary, Call.getTarget dn] ++ (create_new_build_target o b dn).2) := by
    unfold builder_get_build_target_meta
    rw [h1]
    simp [he]
  refine ⟨h2, ?_⟩
  rw [h2, hc2]
  simp

/-- Oracle for the C10 witness: the existence GET for the derived name fails
with a 500-style upstream error (not a not-found), and creation succeeds. -/
def c10Oracle : UCOracle :=
  { getTarget := fun n =>
      if n = str "mac" then .ok primaryMainMeta else .error (.requestFailed 500),
    postCreate := fun _ => { status := 201, error := none, body := c6DerivedMeta } }

/-- Witness for `c10_any_failed_existence_check_leads_to_creation`: a non-404
upstream error on the existence check still results in a creation attempt. -/
theorem c10_any_failed_existence_check_leads_to_creation_witness :
    builder_get_build_target_meta c10Oracle c6Builder true
      = ((create_new_build_target c10Oracle c6Builder (str "mac-feature")).1,
         [Call.getTarget (str "mac"), Call.getTarget (str "mac-feature")]
           ++ (create_new_build_target c10Oracle c6Builder (str "mac-feature")).2)
    ∧ Call.postCreate (str "mac-feature")
        ∈ (builder_get_build_target_meta c10Oracle c6Builder true).2 :=
  c10_any_failed_existence_check_leads_to_creation c10Oracle c6Builder primaryMainMeta
    (str "mac-feature") (.requestFailed 500) (by decide) (by decide) (by decide) (by decide)

end Action
